import Mathlib

/-!
Shallow embedding of the oc-mobile client's state-synchronization core:
the sessions store (src/lib/stores/sessions.ts), the servers store
(getActiveClient and friends), the TanStack query-cache updaters
(src/lib/query/hooks/use-projects.ts), the SSE event dispatch
(src/lib/opencode/use-events.ts) and the query-client configuration
(mutations/queries retry defaults).

JS records (objects used as string-keyed maps) are modelled as functions
String -> Option. Remote calls are modelled by passing the call's outcome
as an explicit Except value: a thrown / network error is .error, a
response is .ok carrying the (possibly missing) data field. Each store
operation that guards on the active connection takes the servers-store
state and reports whether it reached the network call.
-/

namespace OCMobile

/-- String-keyed record, as a JS object: lookup is function application. -/
def StrMap (α : Type) : Type := String → Option α

/-- The empty record. -/
def StrMap.empty {α : Type} : StrMap α := fun _ => none

/-- JS spread update: the record with key set to the value. -/
def StrMap.set {α : Type} (m : StrMap α) (k : String) (v : α) : StrMap α :=
  fun x => if x = k then some v else m x

/-- Key removal (removeQueries). -/
def StrMap.remove {α : Type} (m : StrMap α) (k : String) : StrMap α :=
  fun x => if x = k then none else m x

/-- tokens field of an assistant message. -/
structure Tokens where
  input : Nat
  output : Nat
deriving DecidableEq, Repr

inductive Role where
  | user
  | assistant
deriving DecidableEq, Repr

/-- Message info (src/lib/opencode/types): id, sessionID, role, optional tokens. -/
structure Message where
  id : String
  sessionID : String
  role : Role
  tokens : Option Tokens
deriving DecidableEq, Repr

/-- A message part: identity plus streamed content. -/
structure Part where
  id : String
  messageID : String
  sessionID : String
  content : String
deriving DecidableEq, Repr

structure STime where
  created : Nat
  updated : Nat
deriving DecidableEq, Repr

structure Session where
  id : String
  title : String
  time : STime
  parentID : Option String
  shareUrl : Option String
deriving DecidableEq, Repr

inductive StatusType where
  | idle
  | busy
  | retry
deriving DecidableEq, Repr

structure SessionStatus where
  type : StatusType
deriving DecidableEq, Repr

inductive TodoStatus where
  | pending
  | inProgress
  | completed
deriving DecidableEq, Repr

structure Todo where
  id : String
  content : String
  status : TodoStatus
deriving DecidableEq, Repr

structure Permission where
  id : String
  sessionID : String
  title : String
deriving DecidableEq, Repr

/-- One entry of a session's message list: { info, parts }. -/
structure MessageWithParts where
  info : Message
  parts : List Part
deriving DecidableEq, Repr

structure TokenCounts where
  input : Nat
  output : Nat
  total : Nat
deriving DecidableEq, Repr

/-- The sessions store's current-session live buffer. -/
structure SessionWithMessages where
  session : Session
  messages : List MessageWithParts
  todos : List Todo
  status : SessionStatus
deriving DecidableEq, Repr

/-- Loop body of calculateTokenCounts: an assistant message with a
tokens field adds its input/output to the accumulator. -/
def tokenStep (acc : Nat × Nat) (msg : MessageWithParts) : Nat × Nat :=
  match msg.info.role, msg.info.tokens with
  | Role.assistant, some t => (acc.1 + t.input, acc.2 + t.output)
  | _, _ => acc

/-- calculateTokenCounts (src/lib/stores/sessions.ts:63 and
src/lib/query/hooks/use-projects.ts:100): accumulate input/output over
assistant messages that carry a tokens field. -/
def calculateTokenCounts (messages : List MessageWithParts) : TokenCounts :=
  let acc := messages.foldl tokenStep (0, 0)
  { input := acc.1, output := acc.2, total := acc.1 + acc.2 }

/-- Insert into a list kept sorted by time.updated descending. -/
def insertByUpdatedDesc (s : Session) : List Session → List Session
  | [] => [s]
  | t :: ts =>
    if t.time.updated ≤ s.time.updated then s :: t :: ts
    else t :: insertByUpdatedDesc s ts

/-- sessions.sort((a, b) => b.time.updated - a.time.updated). -/
def sortByUpdatedDesc : List Session → List Session
  | [] => []
  | s :: ss => insertByUpdatedDesc s (sortByUpdatedDesc ss)

/-- Sorted by time.updated descending. -/
def SortedByUpdatedDesc (l : List Session) : Prop :=
  l.Pairwise (fun a b => b.time.updated ≤ a.time.updated)

instance : DecidablePred SortedByUpdatedDesc := fun l =>
  List.instDecidablePairwise l

/-! ## Servers store (src/lib/stores/models.ts, servers section) -/

inductive ConnStatus where
  | disconnected
  | connecting
  | connected
  | error
deriving DecidableEq, Repr

/-- Per-server runtime state (config url + connection status). -/
structure ServerEntry where
  url : String
  status : ConnStatus
deriving Repr

structure ServersState where
  activeServerId : Option String
  serverStates : StrMap ServerEntry
  activeProjectPath : Option String

/-- getActiveClient (src/lib/stores/models.ts:349): the client for the
active server's url, or null when there is no active server or it is not
connected. The client is identified by its base url. -/
def getActiveClient (s : ServersState) : Option String :=
  match s.activeServerId with
  | none => none
  | some id_ =>
    match s.serverStates id_ with
    | none => none
    | some entry =>
      if entry.status = ConnStatus.connected then some entry.url else none

/-! ## Sessions store (src/lib/stores/sessions.ts) -/

structure SessionsState where
  sessions : List Session
  sessionStatuses : StrMap SessionStatus
  sessionTokenCounts : StrMap TokenCounts
  currentSession : Option SessionWithMessages
  isLoading : Bool
  isLoadingMessages : Bool
  error : Option String

/-- The id of the session currently holding the live buffer, if any. -/
def currentSessionId (st : SessionsState) : Option String :=
  st.currentSession.map (fun cs => cs.session.id)

/-- Session id such that the store holds a live buffer for it. -/
def HasLiveBuffer (st : SessionsState) (sid : String) : Prop :=
  ∃ cs, st.currentSession = some cs ∧ cs.session.id = sid

/-- Data of the two parallel requests made by fetchSessions. -/
structure SessionsFetchData where
  sessions : Option (List Session)
  statuses : Option (StrMap SessionStatus)

/-- fetchSessions (sessions.ts:93): guard on the active connection, then
store the sorted list and the status map; on a thrown error record it.
The Bool reports whether the network was reached. -/
def fetchSessions (srv : ServersState) (resp : Except String SessionsFetchData)
    (st : SessionsState) : SessionsState × Bool :=
  match getActiveClient srv, srv.activeProjectPath with
  | some _, some _ =>
    let st1 := { st with isLoading := true, error := none }
    match resp with
    | .error e => ({ st1 with error := some e, isLoading := false }, true)
    | .ok data =>
      match data.sessions with
      | some list =>
        ({ st1 with sessions := sortByUpdatedDesc list,
                    sessionStatuses := data.statuses.getD StrMap.empty,
                    isLoading := false }, true)
      | none => ({ st1 with sessions := [], isLoading := false }, true)
  | _, _ => ({ st with sessions := [], isLoading := false }, false)

/-- fetchSession (sessions.ts:134). -/
def fetchSession (srv : ServersState) (resp : Except String (Option Session))
    (st : SessionsState) : SessionsState :=
  match getActiveClient srv, srv.activeProjectPath with
  | some _, some _ =>
    match resp with
    | .error _ => st
    | .ok none => st
    | .ok (some data) =>
      { st with currentSession :=
          match st.currentSession with
          | some cs => some { cs with session := data }
          | none =>
            some { session := data, messages := [], todos := [],
                   status := { type := StatusType.idle } } }
  | _, _ => st

/-- Data of the three parallel requests made by fetchSessionMessages. -/
structure MessagesFetchData where
  messages : Option (List MessageWithParts)
  todos : Option (List Todo)
  statuses : Option (StrMap SessionStatus)

/-- fetchSessionMessages (sessions.ts:164). -/
def fetchSessionMessages (id_ : String) (srv : ServersState)
    (resp : Except String MessagesFetchData) (st : SessionsState) : SessionsState :=
  match getActiveClient srv, srv.activeProjectPath with
  | some _, some _ =>
    let st1 := { st with isLoadingMessages := true }
    match resp with
    | .error _ => { st1 with isLoadingMessages := false }
    | .ok data =>
      let status := ((data.statuses.getD StrMap.empty) id_).getD
        { type := StatusType.idle }
      let messages := data.messages.getD []
      let tokenCounts := calculateTokenCounts messages
      { st1 with
        currentSession :=
          match st1.currentSession with
          | some cs =>
            some { cs with messages := messages, todos := data.todos.getD [],
                           status := status }
          | none => none,
        sessionTokenCounts := StrMap.set st1.sessionTokenCounts id_ tokenCounts,
        isLoadingMessages := false }
  | _, _ => st

/-- createSession (sessions.ts:211): on success prepend the new session
and return it; on missing data or a thrown error resolve with null and
leave the state untouched. -/
def createSession (srv : ServersState) (resp : Except String (Option Session))
    (st : SessionsState) : SessionsState × Option Session × Bool :=
  match getActiveClient srv, srv.activeProjectPath with
  | some _, some _ =>
    match resp with
    | .error _ => (st, none, true)
    | .ok none => (st, none, true)
    | .ok (some data) => ({ st with sessions := data :: st.sessions }, some data, true)
  | _, _ => (st, none, false)

/-- deleteSession (sessions.ts:237). -/
def deleteSession (id_ : String) (srv : ServersState)
    (resp : Except String (Option Bool)) (st : SessionsState) : SessionsState × Bool :=
  match getActiveClient srv, srv.activeProjectPath with
  | some _, some _ =>
    match resp with
    | .error _ => (st, false)
    | .ok data =>
      if data = some true then
        ({ st with sessions := st.sessions.filter (fun s => s.id ≠ id_),
                   currentSession :=
                     match st.currentSession with
                     | some cs => if cs.session.id = id_ then none else some cs
                     | none => none }, true)
      else (st, false)
  | _, _ => (st, false)

/-- updateSession (sessions.ts:267): replace the session by id in the
list and in the current-session buffer. -/
def updateSessionOp (id_ : String) (title : String) (srv : ServersState)
    (resp : Except String (Option Session)) (st : SessionsState) : SessionsState :=
  match getActiveClient srv, srv.activeProjectPath with
  | some _, some _ =>
    match resp with
    | .error _ => st
    | .ok none => st
    | .ok (some data) =>
      { st with sessions := st.sessions.map (fun s => if s.id = id_ then data else s),
                currentSession :=
                  match st.currentSession with
                  | some cs =>
                    if cs.session.id = id_ then some { cs with session := data }
                    else some cs
                  | none => none }
  | _, _ => st

/-- updateSessionFromEvent (sessions.ts:408): upsert by id then re-sort
by updated time descending; refresh the current-session header. -/
def updateSessionFromEvent (session : Session) (st : SessionsState) : SessionsState :=
  let filtered := st.sessions.filter (fun s => s.id ≠ session.id)
  { st with sessions := sortByUpdatedDesc (session :: filtered),
            currentSession :=
              match st.currentSession with
              | some cs =>
                if cs.session.id = session.id then some { cs with session := session }
                else some cs
              | none => none }

/-- shareSession (sessions.ts:297): on data, route through
updateSessionFromEvent. -/
def shareSession (srv : ServersState) (resp : Except String (Option Session))
    (st : SessionsState) : SessionsState × Option Session :=
  match getActiveClient srv, srv.activeProjectPath with
  | some _, some _ =>
    match resp with
    | .error _ => (st, none)
    | .ok none => (st, none)
    | .ok (some data) => (updateSessionFromEvent data st, some data)
  | _, _ => (st, none)

/-- unshareSession (sessions.ts:321). -/
def unshareSession (srv : ServersState) (resp : Except String (Option Session))
    (st : SessionsState) : SessionsState × Option Session :=
  match getActiveClient srv, srv.activeProjectPath with
  | some _, some _ =>
    match resp with
    | .error _ => (st, none)
    | .ok none => (st, none)
    | .ok (some data) => (updateSessionFromEvent data st, some data)
  | _, _ => (st, none)

/-- abortSession (sessions.ts:345): no state change; resolves with
response.data === true, or false on guard failure or a thrown error. -/
def abortSession (srv : ServersState) (resp : Except String (Option Bool))
    (st : SessionsState) : SessionsState × Bool × Bool :=
  match getActiveClient srv, srv.activeProjectPath with
  | some _, some _ =>
    match resp with
    | .error _ => (st, false, true)
    | .ok data => (st, data = some true, true)
  | _, _ => (st, false, false)

/-- sendPrompt (sessions.ts:364): fire-and-forget; errors are caught,
nothing is written to the store in any branch. -/
def sendPrompt (srv : ServersState) (resp : Except String Unit)
    (st : SessionsState) : SessionsState × Bool :=
  match getActiveClient srv, srv.activeProjectPath with
  | some _, some _ =>
    match resp with
    | .error _ => (st, true)
    | .ok _ => (st, true)
  | _, _ => (st, false)

/-- clearCurrentSession (sessions.ts:403). -/
def clearCurrentSession (st : SessionsState) : SessionsState :=
  { st with currentSession := none }

/-- removeSessionFromEvent (sessions.ts:427). -/
def removeSessionFromEvent (sessionId : String) (st : SessionsState) : SessionsState :=
  { st with sessions := st.sessions.filter (fun s => s.id ≠ sessionId),
            currentSession :=
              match st.currentSession with
              | some cs => if cs.session.id = sessionId then none else some cs
              | none => none }

/-- Upsert a message by id into a message list (append if new, replace
info if existing); shared by the store and the query-cache updater. -/
def upsertMessage (message : Message) (l : List MessageWithParts) : List MessageWithParts :=
  if l.any (fun m => decide (m.info.id = message.id)) then
    l.map (fun m => if m.info.id = message.id then { m with info := message } else m)
  else l ++ [{ info := message, parts := [] }]

/-- Upsert a part by id into its parent message's part list; messages
other than part.messageID are untouched. -/
def upsertPartInMessages (part : Part) (l : List MessageWithParts) : List MessageWithParts :=
  l.map (fun m =>
    if m.info.id = part.messageID then
      if m.parts.any (fun p => decide (p.id = part.id)) then
        { m with parts := m.parts.map (fun p => if p.id = part.id then part else p) }
      else { m with parts := m.parts ++ [part] }
    else m)

/-- updateMessageFromEvent (sessions.ts:437): only for the current
session; upsert the message and recompute token counts. -/
def updateMessageFromEvent (message : Message) (st : SessionsState) : SessionsState :=
  match st.currentSession with
  | none => st
  | some cs =>
    if cs.session.id = message.sessionID then
      let messages := upsertMessage message cs.messages
      { st with currentSession := some { cs with messages := messages },
                sessionTokenCounts :=
                  StrMap.set st.sessionTokenCounts message.sessionID
                    (calculateTokenCounts messages) }
    else st

/-- updatePartFromEvent (sessions.ts:468): only for the current session;
upsert the part within its parent message (delta is unused). -/
def updatePartFromEvent (part : Part) (delta : Option String)
    (st : SessionsState) : SessionsState :=
  match st.currentSession with
  | none => st
  | some cs =>
    if cs.session.id = part.sessionID then
      let messages := upsertPartInMessages part cs.messages
      { st with currentSession := some { cs with messages := messages } }
    else st

/-- updateStatusFromEvent (sessions.ts:493): always patch the status map;
patch the live buffer only when it is the current session. -/
def updateStatusFromEvent (sessionId : String) (status : SessionStatus)
    (st : SessionsState) : SessionsState :=
  { st with sessionStatuses := StrMap.set st.sessionStatuses sessionId status,
            currentSession :=
              match st.currentSession with
              | some cs =>
                if cs.session.id = sessionId then some { cs with status := status }
                else some cs
              | none => none }

/-- updateTodosFromEvent (sessions.ts:506): replace the todo list
wholesale, only for the current session. -/
def updateTodosFromEvent (sessionId : String) (todos : List Todo)
    (st : SessionsState) : SessionsState :=
  match st.currentSession with
  | some cs =>
    if cs.session.id = sessionId then
      { st with currentSession := some { cs with todos := todos } }
    else st
  | none => st

/-! ## Query cache layer (src/lib/query/hooks/use-projects.ts) -/

/-- Cached value of the session-messages query. -/
structure SessionMessages where
  messages : List MessageWithParts
  todos : List Todo
  status : SessionStatus
  tokenCounts : TokenCounts
deriving DecidableEq, Repr

/-- Cached value of the sessions-list query. -/
structure SessionListData where
  sessions : List Session
  statuses : StrMap SessionStatus

/-- The query-cache keyspace scoped to the active (server, project) pair:
the list query, the per-session detail queries and the per-session
messages queries. An absent key is an uncreated query; an inner none is
cached null data. -/
structure QueryCache where
  list : Option SessionListData
  detail : StrMap (Option Session)
  messages : StrMap (Option SessionMessages)

/-- setQueryData updater body for the messages entry on message.updated
(use-projects.ts:754): null/undefined stays null; otherwise upsert the
message and recompute token counts. -/
def qMessagesAfterMessage (message : Message) :
    Option SessionMessages → Option SessionMessages
  | none => none
  | some old =>
    let messages := upsertMessage message old.messages
    some { old with messages := messages,
                    tokenCounts := calculateTokenCounts messages }

/-- setQueryData updater body for the messages entry on
message.part.updated (use-projects.ts:778). -/
def qMessagesAfterPart (part : Part) :
    Option SessionMessages → Option SessionMessages
  | none => none
  | some old => some { old with messages := upsertPartInMessages part old.messages }

/-- setQueryData updater body for the messages entry on session.status /
session.idle (use-projects.ts:745). -/
def qMessagesAfterStatus (status : SessionStatus) :
    Option SessionMessages → Option SessionMessages
  | none => none
  | some old => some { old with status := status }

/-- setQueryData updater body for the messages entry on todo.updated
(use-projects.ts:804): replace the todo list wholesale. -/
def qMessagesAfterTodos (todos : List Todo) :
    Option SessionMessages → Option SessionMessages
  | none => none
  | some old => some { old with todos := todos }

/-- useSessionQueryUpdaters.updateMessage: write the updater result into
the messages entry keyed by message.sessionID. -/
def qUpdateMessage (message : Message) (qc : QueryCache) : QueryCache :=
  let old := (qc.messages message.sessionID).getD none
  { qc with messages :=
      StrMap.set qc.messages message.sessionID (qMessagesAfterMessage message old) }

/-- useSessionQueryUpdaters.updatePart. -/
def qUpdatePart (part : Part) (qc : QueryCache) : QueryCache :=
  let old := (qc.messages part.sessionID).getD none
  { qc with messages :=
      StrMap.set qc.messages part.sessionID (qMessagesAfterPart part old) }

/-- useSessionQueryUpdaters.updateTodos. -/
def qUpdateTodos (sessionId : String) (todos : List Todo) (qc : QueryCache) : QueryCache :=
  let old := (qc.messages sessionId).getD none
  { qc with messages :=
      StrMap.set qc.messages sessionId (qMessagesAfterTodos todos old) }

/-- useSessionQueryUpdaters.updateStatus (use-projects.ts:729): patch the
list query's status map and the messages entry. -/
def qUpdateStatus (sessionId : String) (status : SessionStatus)
    (qc : QueryCache) : QueryCache :=
  let list :=
    match qc.list with
    | none => some { sessions := [], statuses := StrMap.set StrMap.empty sessionId status }
    | some old => some { old with statuses := StrMap.set old.statuses sessionId status }
  let old := (qc.messages sessionId).getD none
  { qc with list := list,
            messages := StrMap.set qc.messages sessionId (qMessagesAfterStatus status old) }

/-- useSessionQueryUpdaters.updateSession (use-projects.ts:676): upsert
into the list by id, re-sort by updated time descending, and set the
detail entry. -/
def qUpdateSession (session : Session) (qc : QueryCache) : QueryCache :=
  let list :=
    match qc.list with
    | none => some { sessions := [session], statuses := StrMap.empty }
    | some old =>
      let filtered := old.sessions.filter (fun s => s.id ≠ session.id)
      some { old with sessions := sortByUpdatedDesc (session :: filtered) }
  { qc with list := list,
            detail := StrMap.set qc.detail session.id (some session) }

/-- useSessionQueryUpdaters.removeSession (use-projects.ts:698): drop
from the list and remove the detail and messages queries. -/
def qRemoveSession (sessionId : String) (qc : QueryCache) : QueryCache :=
  let list :=
    match qc.list with
    | none => some { sessions := [], statuses := StrMap.empty }
    | some old => some { old with sessions := old.sessions.filter (fun s => s.id ≠ sessionId) }
  { qc with list := list,
            detail := StrMap.remove qc.detail sessionId,
            messages := StrMap.remove qc.messages sessionId }

/-- useCreateSession onSuccess patch (use-projects.ts:301): prepend the
new session to the cached list (no re-sort). -/
def qCreateSessionPatch (newSession : Session) (qc : QueryCache) : QueryCache :=
  { qc with list :=
      match qc.list with
      | none => some { sessions := [newSession], statuses := StrMap.empty }
      | some old => some { old with sessions := newSession :: old.sessions } }

/-- useDeleteSession onSuccess patch (use-projects.ts:347). -/
def qDeleteSessionPatch (deletedId : String) (qc : QueryCache) : QueryCache :=
  { qc with list :=
      match qc.list with
      | none => some { sessions := [], statuses := StrMap.empty }
      | some old => some { old with sessions := old.sessions.filter (fun s => s.id ≠ deletedId) } }

/-- useUpdateSession onSuccess patch (use-projects.ts:394): replace by id
in place (no re-sort) and set the detail entry. -/
def qUpdateSessionMutPatch (updatedSession : Session) (qc : QueryCache) : QueryCache :=
  let list :=
    match qc.list with
    | none => some { sessions := [updatedSession], statuses := StrMap.empty }
    | some old =>
      some { old with sessions :=
        old.sessions.map (fun s => if s.id = updatedSession.id then updatedSession else s) }
  { qc with list := list,
            detail := StrMap.set qc.detail updatedSession.id (some updatedSession) }

/-- useShareSession onSuccess patch (use-projects.ts:451). -/
def qShareSessionPatch (sharedSession : Session) (qc : QueryCache) : QueryCache :=
  let list :=
    match qc.list with
    | none => some { sessions := [sharedSession], statuses := StrMap.empty }
    | some old =>
      some { old with sessions :=
        old.sessions.map (fun s => if s.id = sharedSession.id then sharedSession else s) }
  { qc with list := list,
            detail := StrMap.set qc.detail sharedSession.id (some sharedSession) }

/-- useUnshareSession onSuccess patch (use-projects.ts:507). -/
def qUnshareSessionPatch (unsharedSession : Session) (qc : QueryCache) : QueryCache :=
  let list :=
    match qc.list with
    | none => some { sessions := [unsharedSession], statuses := StrMap.empty }
    | some old =>
      some { old with sessions :=
        old.sessions.map (fun s => if s.id = unsharedSession.id then unsharedSession else s) }
  { qc with list := list,
            detail := StrMap.set qc.detail unsharedSession.id (some unsharedSession) }

/-- mutationFn result shape: a thrown error stays an error, missing data
becomes the hook's own thrown error, present data is the success value. -/
def mutationResult {α : Type} (failMsg : String)
    (resp : Except String (Option α)) : Except String α :=
  match resp with
  | .error e => .error e
  | .ok none => .error failMsg
  | .ok (some a) => .ok a

/-- useCreateSession (use-projects.ts:278): guard, mutationFn, and the
onSuccess cache patch applied only on a success result. -/
def useCreateSessionRun (srv : ServersState) (resp : Except String (Option Session))
    (qc : QueryCache) : QueryCache × Except String Session :=
  match getActiveClient srv, srv.activeProjectPath with
  | some _, some _ =>
    match mutationResult "Failed to create session" resp with
    | .error e => (qc, .error e)
    | .ok s => (qCreateSessionPatch s qc, .ok s)
  | _, _ => (qc, .error "No active connection")

/-- useDeleteSession (use-projects.ts:324). -/
def useDeleteSessionRun (id_ : String) (srv : ServersState)
    (resp : Except String (Option Bool)) (qc : QueryCache) :
    QueryCache × Except String String :=
  match getActiveClient srv, srv.activeProjectPath with
  | some _, some _ =>
    match resp with
    | .error e => (qc, .error e)
    | .ok data =>
      if data = some true then (qDeleteSessionPatch id_ qc, .ok id_)
      else (qc, .error "Failed to delete session")
  | _, _ => (qc, .error "No active connection")

/-- useUpdateSession (use-projects.ts:370). -/
def useUpdateSessionRun (srv : ServersState) (resp : Except String (Option Session))
    (qc : QueryCache) : QueryCache × Except String Session :=
  match getActiveClient srv, srv.activeProjectPath with
  | some _, some _ =>
    match mutationResult "Failed to update session" resp with
    | .error e => (qc, .error e)
    | .ok s => (qUpdateSessionMutPatch s qc, .ok s)
  | _, _ => (qc, .error "No active connection")

/-- useShareSession (use-projects.ts:428). -/
def useShareSessionRun (srv : ServersState) (resp : Except String (Option Session))
    (qc : QueryCache) : QueryCache × Except String Session :=
  match getActiveClient srv, srv.activeProjectPath with
  | some _, some _ =>
    match mutationResult "Failed to share session" resp with
    | .error e => (qc, .error e)
    | .ok s => (qShareSessionPatch s qc, .ok s)
  | _, _ => (qc, .error "No active connection")

/-- useUnshareSession (use-projects.ts:484). -/
def useUnshareSessionRun (srv : ServersState) (resp : Except String (Option Session))
    (qc : QueryCache) : QueryCache × Except String Session :=
  match getActiveClient srv, srv.activeProjectPath with
  | some _, some _ =>
    match mutationResult "Failed to unshare session" resp with
    | .error e => (qc, .error e)
    | .ok s => (qUnshareSessionPatch s qc, .ok s)
  | _, _ => (qc, .error "No active connection")

/-- useSendPrompt (use-projects.ts:563): no cache patch; the mutation
rejects on a thrown error or a missing connection. -/
def useSendPromptRun (srv : ServersState) (resp : Except String Unit)
    (qc : QueryCache) : QueryCache × Except String Unit :=
  match getActiveClient srv, srv.activeProjectPath with
  | some _, some _ =>
    match resp with
    | .error e => (qc, .error e)
    | .ok _ => (qc, .ok ())
  | _, _ => (qc, .error "No active connection")

/-! ## Permissions store (pending queue) -/

/-- addPermission: append unless an entry with the same id exists. -/
def addPermission (permission : Permission) (l : List Permission) : List Permission :=
  if l.any (fun p => decide (p.id = permission.id)) then l
  else l ++ [permission]

/-- removePermission: drop by id. -/
def removePermission (permissionId : String) (l : List Permission) : List Permission :=
  l.filter (fun p => p.id ≠ permissionId)

/-! ## SSE event dispatch (src/lib/opencode/use-events.ts, handleEvent) -/

/-- Parsed SSE event frames; Option fields mirror the truthiness guards
on the properties payload. -/
inductive Event where
  | sessionCreated (info : Option Session)
  | sessionUpdated (info : Option Session)
  | sessionDeleted (info : Option Session)
  | sessionStatus (sessionID : Option String) (status : Option SessionStatus)
  | messageUpdated (info : Option Message)
  | messagePartUpdated (part : Option Part) (delta : Option String)
  | todoUpdated (sessionID : Option String) (todos : Option (List Todo))
  | sessionIdle (sessionID : Option String)
  | permissionUpdated (perm : Option Permission)
  | permissionReplied (permissionID : Option String)
  | unrecognized

/-- The client state handleEvent writes to: the sessions store, the
query cache and the pending-permissions queue. -/
structure AppState where
  store : SessionsState
  qc : QueryCache
  pendingPermissions : List Permission

/-- handleEvent (use-events.ts:55): dispatch one typed event to the
store updaters and/or the query-cache updaters. -/
def handleEvent (e : Event) (app : AppState) : AppState :=
  match e with
  | .sessionCreated (some info) => { app with qc := qUpdateSession info app.qc }
  | .sessionUpdated (some info) => { app with qc := qUpdateSession info app.qc }
  | .sessionDeleted (some info) => { app with qc := qRemoveSession info.id app.qc }
  | .sessionStatus (some sid) (some status) =>
    { app with store := updateStatusFromEvent sid status app.store,
               qc := qUpdateStatus sid status app.qc }
  | .messageUpdated (some info) =>
    { app with store := updateMessageFromEvent info app.store,
               qc := qUpdateMessage info app.qc }
  | .messagePartUpdated (some part) delta =>
    { app with store := updatePartFromEvent part delta app.store,
               qc := qUpdatePart part app.qc }
  | .todoUpdated (some sid) (some todos) =>
    { app with store := updateTodosFromEvent sid todos app.store,
               qc := qUpdateTodos sid todos app.qc }
  | .sessionIdle (some sid) =>
    { app with store := updateStatusFromEvent sid { type := StatusType.idle } app.store,
               qc := qUpdateStatus sid { type := StatusType.idle } app.qc }
  | .permissionUpdated (some perm) =>
    { app with pendingPermissions := addPermission perm app.pendingPermissions }
  | .permissionReplied (some pid) =>
    { app with pendingPermissions := removePermission pid app.pendingPermissions }
  | _ => app

/-! ## Real-time event channel (use-events.ts: connect / error listener /
disconnect): connection and reconnect-timer lifecycle. -/

/-- Fixed reconnect delay (use-events.ts:197). -/
def reconnectDelayMs : Nat := 5000

/-- connOpen: an EventSource is held; reconnectPending: the single
reconnectTimeoutRef slot holds a scheduled timer; connectAttempts counts
calls to connect(). -/
structure ChanState where
  connOpen : Bool
  reconnectPending : Bool
  connectAttempts : Nat
deriving DecidableEq, Repr

inductive ChanEvent where
  | sseError
  | teardown
  | timerFire (isConnected : Bool)
deriving DecidableEq, Repr

/-- One lifecycle step: on error close the source and schedule the single
reconnect timer; on teardown (disconnect) close the source and cancel the
pending timer; when the timer fires it is consumed and connect() runs
only if the server is still connected. -/
def chanStep (s : ChanState) : ChanEvent → ChanState
  | .sseError =>
    { connOpen := false, reconnectPending := true,
      connectAttempts := s.connectAttempts }
  | .teardown =>
    { connOpen := false, reconnectPending := false,
      connectAttempts := s.connectAttempts }
  | .timerFire isConnected =>
    if s.reconnectPending then
      if isConnected then
        { connOpen := true, reconnectPending := false,
          connectAttempts := s.connectAttempts + 1 }
      else { s with reconnectPending := false }
    else s

/-- Run a sequence of lifecycle events. -/
def chanRun (s : ChanState) (evs : List ChanEvent) : ChanState :=
  evs.foldl chanStep s

/-! ## Query client defaults (query client module) -/

/-- queries.retry default. -/
def queriesRetry : Nat := 2

/-- mutations.retry default: failed mutations are retried once. -/
def mutationsRetry : Nat := 1

/-- queries.staleTime default (30s). -/
def queriesStaleTimeMs : Nat := 30 * 1000

/-! ## Auxiliary definitions used by the verification layer -/

/-- Contribution of one message to the input token aggregate. -/
def assistantInput (m : MessageWithParts) : Nat :=
  match m.info.role, m.info.tokens with
  | Role.assistant, some t => t.input
  | _, _ => 0

/-- Contribution of one message to the output token aggregate. -/
def assistantOutput (m : MessageWithParts) : Nat :=
  match m.info.role, m.info.tokens with
  | Role.assistant, some t => t.output
  | _, _ => 0

/-- An assistant message that carries a tokens field. -/
def isCountedAssistant (m : MessageWithParts) : Bool :=
  decide (m.info.role = Role.assistant) && m.info.tokens.isSome

/-- The live events the sessions store can receive for the current
session (the four store updaters wired to handleEvent). -/
inductive LiveEvent where
  | message (m : Message)
  | part (p : Part) (delta : Option String)
  | status (sessionId : String) (status : SessionStatus)
  | todos (sessionId : String) (todos : List Todo)

/-- Dispatch a live event to the corresponding store updater. -/
def applyLiveEvent : LiveEvent → SessionsState → SessionsState
  | .message m, st => updateMessageFromEvent m st
  | .part p d, st => updatePartFromEvent p d st
  | .status sid s, st => updateStatusFromEvent sid s st
  | .todos sid ts, st => updateTodosFromEvent sid ts st

/-- The sessions held by the cached list query ([] when uncreated). -/
def qcListSessions (qc : QueryCache) : List Session :=
  (qc.list.map (fun d => d.sessions)).getD []

/-- Sample data for concrete instantiations. -/
def mkSession (id_ : String) (u : Nat) : Session :=
  { id := id_, title := id_, time := { created := 0, updated := u },
    parentID := none, shareUrl := none }

/-- An assistant message carrying a tokens field. -/
def mkAssistant (id_ sid : String) (inp outp : Nat) : MessageWithParts :=
  { info := { id := id_, sessionID := sid, role := Role.assistant,
              tokens := some { input := inp, output := outp } },
    parts := [] }

/-- The sessions store's initial state. -/
def stEmpty : SessionsState :=
  { sessions := [], sessionStatuses := StrMap.empty,
    sessionTokenCounts := StrMap.empty, currentSession := none,
    isLoading := false, isLoadingMessages := false, error := none }

/-- An empty query cache. -/
def qcEmpty : QueryCache :=
  { list := none, detail := StrMap.empty, messages := StrMap.empty }

/-- A servers-store state with one connected active server and an active
project. -/
def srvConnected : ServersState :=
  { activeServerId := some "srv1",
    serverStates := StrMap.set StrMap.empty "srv1"
      { url := "http://localhost:4096", status := ConnStatus.connected },
    activeProjectPath := some "/home/proj" }

/-- A servers-store state with no active server. -/
def srvNoActive : ServersState :=
  { activeServerId := none, serverStates := StrMap.empty,
    activeProjectPath := some "/home/proj" }

/-- The current session's live message list ([] when no session is
current). -/
def currentMessages (st : SessionsState) : List MessageWithParts :=
  match st.currentSession with
  | some cs => cs.messages
  | none => []

/-- Concrete messages-query value for sample states. -/
def smSample : SessionMessages :=
  { messages := [mkAssistant "m1" "s1" 1 2], todos := [],
    status := { type := StatusType.idle },
    tokenCounts := { input := 1, output := 2, total := 3 } }

/-- A store state whose current session is "s1" with one message "m1". -/
def stWithCurrent : SessionsState :=
  let cs : SessionWithMessages :=
    { session := mkSession "s1" 10, messages := [mkAssistant "m1" "s1" 1 2],
      todos := [], status := { type := StatusType.idle } }
  { stEmpty with currentSession := some cs }

/-- A query cache holding a messages entry for session "s1". -/
def qcWithMessages : QueryCache :=
  { qcEmpty with messages := StrMap.set StrMap.empty "s1" (some smSample) }

/-- A part event whose messageID matches no cached message. -/
def orphanPart : Part :=
  { id := "p1", messageID := "mX", sessionID := "s1", content := "d" }

/-- Sample app state: current session "s1", cache entry for "s1". -/
def appSample : AppState :=
  { store := stWithCurrent, qc := qcWithMessages, pendingPermissions := [] }

/-- A message event for a non-current session "sB". -/
def msgForB : Message :=
  { id := "m9", sessionID := "sB", role := Role.assistant, tokens := none }

/-- A part event for a non-current session "sB". -/
def partForB : Part :=
  { id := "p9", messageID := "m9", sessionID := "sB", content := "x" }

def sessA : Session := mkSession "a" 300

def sessB : Session := mkSession "b" 200

/-- Session "b" after an update that bumps its updated time. -/
def sessBupdated : Session := mkSession "b" 400

/-- A query cache whose list query holds a sorted session list. -/
def qcSorted : QueryCache :=
  let d : SessionListData := { sessions := [sessA, sessB], statuses := StrMap.empty }
  { qcEmpty with list := some d }

/-- The session visited in the buffer-isolation scenario. -/
def sessVisit : Session := mkSession "sA" 100

/-- Concrete fetch result for the buffer-isolation scenario. -/
def mdataSample : MessagesFetchData :=
  { messages := some [mkAssistant "mA" "sA" 10 5], todos := some [],
    statuses := some StrMap.empty }

/-! ## Helper lemmas -/

theorem StrMap.set_apply_self {α : Type} (m : StrMap α) (k : String) (v : α) :
    StrMap.set m k v k = some v := by
  simp [StrMap.set]

theorem StrMap.set_apply_ne {α : Type} (m : StrMap α) (k x : String) (v : α)
    (h : x ≠ k) : StrMap.set m k v x = m x := by
  simp [StrMap.set, h]

theorem StrMap.set_set {α : Type} (m : StrMap α) (k : String) (v w : α) :
    StrMap.set (StrMap.set m k v) k w = StrMap.set m k w := by
  funext x
  by_cases hx : x = k <;> simp [StrMap.set, hx]

theorem StrMap.set_of_apply_eq {α : Type} (m : StrMap α) (k : String) (v : α)
    (h : m k = some v) : StrMap.set m k v = m := by
  funext x
  by_cases hx : x = k
  · subst hx; simp [StrMap.set, h]
  · simp [StrMap.set, hx]

theorem map_id_of {α : Type} (f : α → α) :
    ∀ l : List α, (∀ a ∈ l, f a = a) → l.map f = l
  | [], _ => rfl
  | a :: l, h => by
    simp only [List.map_cons]
    rw [h a (List.mem_cons_self a l),
      map_id_of f l (fun b hb => h b (List.mem_cons_of_mem a hb))]

theorem map_f_map_f {α : Type} (f : α → α) (h : ∀ a, f (f a) = f a)
    (l : List α) : (l.map f).map f = l.map f := by
  apply map_id_of
  intro a ha
  rcases List.mem_map.mp ha with ⟨b, _, rfl⟩
  exact h b

theorem upsertMessage_idem (message : Message) (l : List MessageWithParts) :
    upsertMessage message (upsertMessage message l) = upsertMessage message l := by
  by_cases h : l.any (fun m => decide (m.info.id = message.id)) = true
  · have hmap : upsertMessage message l =
        l.map (fun m => if m.info.id = message.id then { m with info := message } else m) := by
      simp [upsertMessage, h]
    rcases List.any_eq_true.mp h with ⟨w, hw, hwp⟩
    have hwid : w.info.id = message.id := of_decide_eq_true hwp
    have hany2 : (l.map (fun m =>
        if m.info.id = message.id then { m with info := message } else m)).any
        (fun m => decide (m.info.id = message.id)) = true := by
      apply List.any_eq_true.mpr
      refine ⟨if w.info.id = message.id then { w with info := message } else w,
        List.mem_map_of_mem _ hw, ?_⟩
      simp [hwid]
    rw [hmap]
    simp only [upsertMessage, hany2, if_pos]
    apply map_f_map_f
    intro m
    by_cases hm : m.info.id = message.id <;> simp [hm]
  · have hmap : upsertMessage message l = l ++ [{ info := message, parts := [] }] := by
      simp [upsertMessage, h]
    have hnone : ∀ m ∈ l, ¬(m.info.id = message.id) := by
      intro m hm
      have := List.any_eq_false.mp (Bool.eq_false_iff.mpr h) m hm
      simpa using this
    have hany2 : (l ++ [({ info := message, parts := [] } : MessageWithParts)]).any
        (fun m => decide (m.info.id = message.id)) = true := by
      apply List.any_eq_true.mpr
      exact ⟨{ info := message, parts := [] }, by simp, by simp⟩
    rw [hmap]
    simp only [upsertMessage, hany2, if_pos, List.map_append]
    congr 1
    · apply map_id_of
      intro m hm
      simp [hnone m hm]
    · simp

theorem upsertPart_pointwise_idem (part : Part) (m : MessageWithParts) :
    (fun m : MessageWithParts =>
      if m.info.id = part.messageID then
        if m.parts.any (fun p => decide (p.id = part.id)) then
          { m with parts := m.parts.map (fun p => if p.id = part.id then part else p) }
        else { m with parts := m.parts ++ [part] }
      else m)
    ((fun m : MessageWithParts =>
      if m.info.id = part.messageID then
        if m.parts.any (fun p => decide (p.id = part.id)) then
          { m with parts := m.parts.map (fun p => if p.id = part.id then part else p) }
        else { m with parts := m.parts ++ [part] }
      else m) m) =
    (fun m : MessageWithParts =>
      if m.info.id = part.messageID then
        if m.parts.any (fun p => decide (p.id = part.id)) then
          { m with parts := m.parts.map (fun p => if p.id = part.id then part else p) }
        else { m with parts := m.parts ++ [part] }
      else m) m := by
  by_cases hm : m.info.id = part.messageID
  · by_cases hp : m.parts.any (fun p => decide (p.id = part.id)) = true
    · rcases List.any_eq_true.mp hp with ⟨w, hw, hwp⟩
      have hwid : w.id = part.id := of_decide_eq_true hwp
      have hany2 : (m.parts.map (fun p => if p.id = part.id then part else p)).any
          (fun p => decide (p.id = part.id)) = true := by
        apply List.any_eq_true.mpr
        refine ⟨if w.id = part.id then part else w, List.mem_map_of_mem _ hw, ?_⟩
        simp [hwid]
      simp only [hm, if_pos, hp, if_true, hany2]
      congr 1
      apply map_f_map_f
      intro p
      by_cases hpp : p.id = part.id <;> simp [hpp]
    · have hnone : ∀ p ∈ m.parts, ¬(p.id = part.id) := by
        intro p hpm
        have := List.any_eq_false.mp (Bool.eq_false_iff.mpr hp) p hpm
        simpa using this
      have hany2 : (m.parts ++ [part]).any (fun p => decide (p.id = part.id)) = true := by
        apply List.any_eq_true.mpr
        exact ⟨part, by simp, by simp⟩
      simp only [hm, if_pos, hp, if_false, Bool.false_eq_true, hany2, if_true,
        List.map_append]
      congr 1
      rw [map_id_of _ _ (fun p hpm => by simp [hnone p hpm])]
      simp
  · simp [hm]

theorem upsertPartInMessages_idem (part : Part) (l : List MessageWithParts) :
    upsertPartInMessages part (upsertPartInMessages part l) =
    upsertPartInMessages part l := by
  unfold upsertPartInMessages
  exact map_f_map_f _ (upsertPart_pointwise_idem part) l

theorem upsertPartInMessages_of_no_match (part : Part) (l : List MessageWithParts)
    (h : ∀ m ∈ l, m.info.id ≠ part.messageID) :
    upsertPartInMessages part l = l := by
  unfold upsertPartInMessages
  apply map_id_of
  intro m hm
  simp [h m hm]

theorem tokenStep_eq (acc : Nat × Nat) (m : MessageWithParts) :
    tokenStep acc m = (acc.1 + assistantInput m, acc.2 + assistantOutput m) := by
  unfold tokenStep assistantInput assistantOutput
  rcases hr : m.info.role <;> rcases ht : m.info.tokens <;> simp

theorem foldl_tokenStep (l : List MessageWithParts) :
    ∀ a b : Nat, l.foldl tokenStep (a, b) =
      (a + (l.map assistantInput).sum, b + (l.map assistantOutput).sum) := by
  induction l with
  | nil => intro a b; simp
  | cons m l ih =>
    intro a b
    simp only [List.foldl_cons, tokenStep_eq, ih, List.map_cons, List.sum_cons]
    rw [Nat.add_assoc, Nat.add_assoc]

theorem calculateTokenCounts_eq (l : List MessageWithParts) :
    calculateTokenCounts l =
      { input := (l.map assistantInput).sum,
        output := (l.map assistantOutput).sum,
        total := (l.map assistantInput).sum + (l.map assistantOutput).sum } := by
  unfold calculateTokenCounts
  rw [foldl_tokenStep]
  simp

theorem sum_assistantInput_filter (l : List MessageWithParts) :
    ((l.filter isCountedAssistant).map assistantInput).sum =
      (l.map assistantInput).sum := by
  induction l with
  | nil => rfl
  | cons m l ih =>
    by_cases h : isCountedAssistant m = true
    · simp [List.filter_cons, h, ih]
    · have hz : assistantInput m = 0 := by
        unfold isCountedAssistant at h
        unfold assistantInput
        rcases hr : m.info.role <;> rcases ht : m.info.tokens <;>
          simp [hr, ht] at h ⊢
      simp [List.filter_cons, h, ih, hz]

theorem sum_assistantOutput_filter (l : List MessageWithParts) :
    ((l.filter isCountedAssistant).map assistantOutput).sum =
      (l.map assistantOutput).sum := by
  induction l with
  | nil => rfl
  | cons m l ih =>
    by_cases h : isCountedAssistant m = true
    · simp [List.filter_cons, h, ih]
    · have hz : assistantOutput m = 0 := by
        unfold isCountedAssistant at h
        unfold assistantOutput
        rcases hr : m.info.role <;> rcases ht : m.info.tokens <;>
          simp [hr, ht] at h ⊢
      simp [List.filter_cons, h, ih, hz]

theorem mem_insertByUpdatedDesc {s x : Session} :
    ∀ {l : List Session}, x ∈ insertByUpdatedDesc s l → x = s ∨ x ∈ l := by
  intro l
  induction l with
  | nil => intro h; simp [insertByUpdatedDesc] at h; exact Or.inl h
  | cons t ts ih =>
    intro h
    unfold insertByUpdatedDesc at h
    by_cases hc : t.time.updated ≤ s.time.updated
    · simp [hc] at h
      rcases h with h | h | h
      · exact Or.inl h
      · exact Or.inr (by simp [h])
      · exact Or.inr (by simp [h])
    · simp [hc] at h
      rcases h with h | h
      · exact Or.inr (by simp [h])
      · rcases ih h with h' | h'
        · exact Or.inl h'
        · exact Or.inr (by simp [h'])

theorem sorted_insertByUpdatedDesc (s : Session) :
    ∀ {l : List Session}, SortedByUpdatedDesc l →
      SortedByUpdatedDesc (insertByUpdatedDesc s l) := by
  intro l
  induction l with
  | nil => intro _; simp [insertByUpdatedDesc, SortedByUpdatedDesc]
  | cons t ts ih =>
    intro h
    rcases (List.pairwise_cons.mp h) with ⟨ht, hts⟩
    unfold insertByUpdatedDesc
    by_cases hc : t.time.updated ≤ s.time.updated
    · simp only [hc, if_true]
      apply List.pairwise_cons.mpr
      refine ⟨?_, h⟩
      intro x hx
      rcases List.mem_cons.mp hx with rfl | hx'
      · exact hc
      · exact le_trans (ht x hx') hc
    · simp only [hc, if_false]
      apply List.pairwise_cons.mpr
      constructor
      · intro x hx
        rcases mem_insertByUpdatedDesc hx with rfl | hx'
        · exact le_of_lt (lt_of_not_le hc)
        · exact ht x hx'
      · exact ih hts

theorem sorted_sortByUpdatedDesc (l : List Session) :
    SortedByUpdatedDesc (sortByUpdatedDesc l) := by
  induction l with
  | nil => simp [sortByUpdatedDesc, SortedByUpdatedDesc]
  | cons s ss ih => exact sorted_insertByUpdatedDesc s ih

theorem chanStep_fire_of_no_pending (s : ChanState) (b : Bool)
    (h : s.reconnectPending = false) : chanStep s (ChanEvent.timerFire b) = s := by
  simp [chanStep, h]

theorem chanRun_fires_fixed (s : ChanState) (h : s.reconnectPending = false) :
    ∀ evs : List ChanEvent, (∀ e ∈ evs, ∃ b, e = ChanEvent.timerFire b) →
      chanRun s evs = s := by
  intro evs
  induction evs with
  | nil => intro _; rfl
  | cons e es ih =>
    intro hall
    rcases hall e (List.mem_cons_self e es) with ⟨b, rfl⟩
    unfold chanRun
    simp only [List.foldl_cons]
    rw [chanStep_fire_of_no_pending s b h]
    exact ih (fun x hx => hall x (List.mem_cons_of_mem _ hx))

theorem qMessagesAfterMessage_idem (message : Message)
    (o : Option SessionMessages) :
    qMessagesAfterMessage message (qMessagesAfterMessage message o) =
      qMessagesAfterMessage message o := by
  cases o with
  | none => rfl
  | some old =>
    simp only [qMessagesAfterMessage, upsertMessage_idem]

theorem qMessagesAfterPart_idem (part : Part) (o : Option SessionMessages) :
    qMessagesAfterPart part (qMessagesAfterPart part o) =
      qMessagesAfterPart part o := by
  cases o with
  | none => rfl
  | some old =>
    simp only [qMessagesAfterPart, upsertPartInMessages_idem]

theorem updateMessageFromEvent_frame (message : Message) (st : SessionsState)
    (h : currentSessionId st ≠ some message.sessionID) :
    updateMessageFromEvent message st = st := by
  cases hcs : st.currentSession with
  | none => simp [updateMessageFromEvent, hcs]
  | some cs =>
    have hne : ¬(cs.session.id = message.sessionID) := by
      intro he
      exact h (by simp [currentSessionId, hcs, he])
    simp [updateMessageFromEvent, hcs, hne]

theorem updatePartFromEvent_frame (part : Part) (d : Option String)
    (st : SessionsState) (h : currentSessionId st ≠ some part.sessionID) :
    updatePartFromEvent part d st = st := by
  cases hcs : st.currentSession with
  | none => simp [updatePartFromEvent, hcs]
  | some cs =>
    have hne : ¬(cs.session.id = part.sessionID) := by
      intro he
      exact h (by simp [currentSessionId, hcs, he])
    simp [updatePartFromEvent, hcs, hne]

theorem updateTodosFromEvent_frame (sid : String) (ts : List Todo)
    (st : SessionsState) (h : currentSessionId st ≠ some sid) :
    updateTodosFromEvent sid ts st = st := by
  cases hcs : st.currentSession with
  | none => simp [updateTodosFromEvent, hcs]
  | some cs =>
    have hne : ¬(cs.session.id = sid) := by
      intro he
      exact h (by simp [currentSessionId, hcs, he])
    simp [updateTodosFromEvent, hcs, hne]

/-! ## Claim theorems -/

/-- C2: Idempotent upsert — for every state, applying the same
message.updated or message.part.updated event twice in a row yields the
same final state as applying it once, both in the sessions store's event
handlers (upsert message by id, upsert part by id within its parent
message) and in the query-cache updaters. -/
theorem c2_idempotent_upsert :
    (∀ (message : Message) (st : SessionsState),
      updateMessageFromEvent message (updateMessageFromEvent message st) =
        updateMessageFromEvent message st) ∧
    (∀ (part : Part) (d1 d2 : Option String) (st : SessionsState),
      updatePartFromEvent part d1 (updatePartFromEvent part d2 st) =
        updatePartFromEvent part d2 st) ∧
    (∀ (message : Message) (qc : QueryCache),
      qUpdateMessage message (qUpdateMessage message qc) =
        qUpdateMessage message qc) ∧
    (∀ (part : Part) (qc : QueryCache),
      qUpdatePart part (qUpdatePart part qc) = qUpdatePart part qc) := by
  refine ⟨?_, ?_, ?_, ?_⟩
  · intro message st
    cases hcs : st.currentSession with
    | none => simp [updateMessageFromEvent, hcs]
    | some cs =>
      by_cases hid : cs.session.id = message.sessionID
      · simp [updateMessageFromEvent, hcs, hid, upsertMessage_idem,
          StrMap.set_set]
      · simp [updateMessageFromEvent, hcs, hid]
  · intro part d1 d2 st
    cases hcs : st.currentSession with
    | none => simp [updatePartFromEvent, hcs]
    | some cs =>
      by_cases hid : cs.session.id = part.sessionID
      · simp [updatePartFromEvent, hcs, hid, upsertPartInMessages_idem]
      · simp [updatePartFromEvent, hcs, hid]
  · intro message qc
    simp [qUpdateMessage, StrMap.set_apply_self, StrMap.set_set,
      qMessagesAfterMessage_idem]
  · intro part qc
    simp [qUpdatePart, StrMap.set_apply_self, StrMap.set_set,
      qMessagesAfterPart_idem]

/-- C4: Token counts are a pure derived aggregate — the computed counts
equal the sums of tokens.input / tokens.output over exactly the
assistant messages that carry a tokens field, with total equal to
input + output; the {10,5} / {20,15} example yields {30, 20, 50}; and
appending a message changes the aggregate additively by that message's
contribution, never by resetting. -/
theorem c4_token_counts_aggregate :
    (∀ l : List MessageWithParts,
      (calculateTokenCounts l).input =
          ((l.filter isCountedAssistant).map assistantInput).sum ∧
      (calculateTokenCounts l).output =
          ((l.filter isCountedAssistant).map assistantOutput).sum ∧
      (calculateTokenCounts l).total =
          (calculateTokenCounts l).input + (calculateTokenCounts l).output) ∧
    (∀ (l : List MessageWithParts) (m : MessageWithParts),
      (calculateTokenCounts (l ++ [m])).input =
          (calculateTokenCounts l).input + assistantInput m ∧
      (calculateTokenCounts (l ++ [m])).output =
          (calculateTokenCounts l).output + assistantOutput m ∧
      (calculateTokenCounts (l ++ [m])).total =
          (calculateTokenCounts l).input + assistantInput m +
            ((calculateTokenCounts l).output + assistantOutput m)) ∧
    calculateTokenCounts [mkAssistant "m1" "s1" 10 5, mkAssistant "m2" "s1" 20 15] =
      { input := 30, output := 20, total := 50 } ∧
    (∀ inp outp : Nat,
      (calculateTokenCounts [mkAssistant "m1" "s1" 10 5,
          mkAssistant "m2" "s1" 20 15, mkAssistant "m3" "s1" inp outp]).total =
        50 + (inp + outp)) := by
  refine ⟨?_, ?_, ?_, ?_⟩
  · intro l
    rw [calculateTokenCounts_eq]
    exact ⟨(sum_assistantInput_filter l).symm,
      (sum_assistantOutput_filter l).symm, rfl⟩
  · intro l m
    rw [calculateTokenCounts_eq, calculateTokenCounts_eq]
    simp
  · decide
  · intro inp outp
    have h : ([mkAssistant "m1" "s1" 10 5, mkAssistant "m2" "s1" 20 15,
        mkAssistant "m3" "s1" inp outp] : List MessageWithParts) =
        [mkAssistant "m1" "s1" 10 5, mkAssistant "m2" "s1" 20 15] ++
          [mkAssistant "m3" "s1" inp outp] := rfl
    rw [h, calculateTokenCounts_eq]
    simp [mkAssistant, assistantInput, assistantOutput]
    omega

/-- C6: Reconnect bound — an SSE error closes the connection and fills
the single reconnect-timer slot (delay fixed at 5000 ms) without itself
connecting; teardown closes the connection and cancels the pending
timer, after which no sequence of timer firings produces a connection
attempt; and firing the scheduled timer consumes it, producing exactly
one connect attempt (and only while the server is still connected). -/
theorem c6_reconnect_bound (s : ChanState) (evs : List ChanEvent)
    (hfires : ∀ e ∈ evs, ∃ b, e = ChanEvent.timerFire b) :
    reconnectDelayMs = 5000 ∧
    chanStep s ChanEvent.sseError =
      { connOpen := false, reconnectPending := true,
        connectAttempts := s.connectAttempts } ∧
    chanStep s ChanEvent.teardown =
      { connOpen := false, reconnectPending := false,
        connectAttempts := s.connectAttempts } ∧
    chanRun (chanStep s ChanEvent.teardown) evs = chanStep s ChanEvent.teardown ∧
    (chanRun (chanStep s ChanEvent.teardown) evs).connectAttempts =
      s.connectAttempts ∧
    (∀ b, chanStep (chanStep s ChanEvent.sseError) (ChanEvent.timerFire b) =
      if b then
        { connOpen := true, reconnectPending := false,
          connectAttempts := s.connectAttempts + 1 }
      else
        { connOpen := false, reconnectPending := false,
          connectAttempts := s.connectAttempts }) := by
  have hrun : chanRun (chanStep s ChanEvent.teardown) evs =
      chanStep s ChanEvent.teardown :=
    chanRun_fires_fixed _ rfl evs hfires
  refine ⟨rfl, rfl, rfl, hrun, by rw [hrun]; rfl, ?_⟩
  intro b
  cases b <;> simp [chanStep]

/-- C6 witness: an error followed by teardown and a later timer firing
never reconnects. -/
theorem c6_reconnect_bound_witness :
    (∀ e ∈ [ChanEvent.timerFire true], ∃ b, e = ChanEvent.timerFire b) ∧
    (chanRun (chanStep ⟨true, true, 3⟩ ChanEvent.teardown)
        [ChanEvent.timerFire true]).connectAttempts = 3 := by
  have h : ∀ e ∈ [ChanEvent.timerFire true], ∃ b, e = ChanEvent.timerFire b := by
    intro e he
    rcases List.mem_singleton.mp he with rfl
    exact ⟨true, rfl⟩
  exact ⟨h, (c6_reconnect_bound ⟨true, true, 3⟩ [ChanEvent.timerFire true] h).2.2.2.2.1⟩

/-- C9: Orphaned part updates no-op — a message.part.updated event whose
part.messageID matches no message in the cached message list for
part.sessionID leaves the sessions store and the query cache unchanged:
the part is silently dropped, not buffered and not added anywhere. -/
theorem c9_orphan_part_noop (part : Part) (d : Option String)
    (st : SessionsState) (qc : QueryCache) (sm : SessionMessages)
    (hcur : ∀ m ∈ currentMessages st, m.info.id ≠ part.messageID)
    (hqc : qc.messages part.sessionID = some (some sm))
    (hsm : ∀ m ∈ sm.messages, m.info.id ≠ part.messageID) :
    updatePartFromEvent part d st = st ∧ qUpdatePart part qc = qc := by
  constructor
  · cases hcs : st.currentSession with
    | none => simp [updatePartFromEvent, hcs]
    | some cs =>
      have hmsgs : ∀ m ∈ cs.messages, m.info.id ≠ part.messageID := by
        intro m hm
        exact hcur m (by simp [currentMessages, hcs]; exact hm)
      by_cases hid : cs.session.id = part.sessionID
      · simp only [updatePartFromEvent, hcs, hid, if_true]
        rw [upsertPartInMessages_of_no_match part cs.messages hmsgs]
        rw [show ({ cs with messages := cs.messages } : SessionWithMessages) = cs
          from rfl, ← hcs]
      · simp [updatePartFromEvent, hcs, hid]
  · have hold : (qc.messages part.sessionID).getD none = some sm := by
      rw [hqc]; rfl
    have hval : qMessagesAfterPart part (some sm) = some sm := by
      have h1 : qMessagesAfterPart part (some sm) =
          some { sm with messages := upsertPartInMessages part sm.messages } := rfl
      rw [h1, upsertPartInMessages_of_no_match part sm.messages hsm]
    unfold qUpdatePart
    rw [hold]
    simp only [hval, StrMap.set_of_apply_eq qc.messages part.sessionID (some sm) hqc]

/-- C9 witness: a concrete orphaned part event leaves the concrete store
state and query cache untouched. -/
theorem c9_orphan_part_noop_witness :
    (∀ m ∈ currentMessages stWithCurrent, m.info.id ≠ orphanPart.messageID) ∧
    qcWithMessages.messages orphanPart.sessionID = some (some smSample) ∧
    (∀ m ∈ smSample.messages, m.info.id ≠ orphanPart.messageID) ∧
    (updatePartFromEvent orphanPart none stWithCurrent = stWithCurrent ∧
      qUpdatePart orphanPart qcWithMessages = qcWithMessages) := by
  refine ⟨by decide, by rfl, by decide, ?_⟩
  exact c9_orphan_part_noop orphanPart none stWithCurrent qcWithMessages smSample
    (by decide) (by rfl) (by decide)

/-- C10: Missing-connection guards — when getActiveClient is null or the
active project path is null, fetchSessions resets the list and loading
flag without touching the error field, createSession resolves null,
abortSession resolves false and sendPrompt resolves with no value; none
of them reaches the network, none of them throws, for every possible
response of the (never-issued) remote call. -/
theorem c10_missing_connection_guards (srv : ServersState) (st : SessionsState)
    (h : getActiveClient srv = none ∨ srv.activeProjectPath = none) :
    (∀ resp, fetchSessions srv resp st =
      ({ st with sessions := [], isLoading := false }, false)) ∧
    (∀ resp, (fetchSessions srv resp st).1.error = st.error) ∧
    (∀ resp, createSession srv resp st = (st, none, false)) ∧
    (∀ resp, abortSession srv resp st = (st, false, false)) ∧
    (∀ resp, sendPrompt srv resp st = (st, false)) := by
  have hguard : ∀ {α : Type} (f g : α),
      (match getActiveClient srv, srv.activeProjectPath with
        | some _, some _ => f
        | _, _ => g) = g := by
    intro α f g
    rcases h with h | h
    · rw [h]
    · rw [h]
      rcases getActiveClient srv with _ | c <;> rfl
  refine ⟨?_, ?_, ?_, ?_, ?_⟩
  · intro resp
    show (match getActiveClient srv, srv.activeProjectPath with
      | some _, some _ => _
      | _, _ => ({ st with sessions := [], isLoading := false }, false)) = _
    rw [hguard]
  · intro resp
    show (match getActiveClient srv, srv.activeProjectPath with
      | some _, some _ => _
      | _, _ => ({ st with sessions := [], isLoading := false }, false)).1.error = _
    rw [hguard]
  · intro resp
    show (match getActiveClient srv, srv.activeProjectPath with
      | some _, some _ => _
      | _, _ => (st, none, false)) = _
    rw [hguard]
  · intro resp
    show (match getActiveClient srv, srv.activeProjectPath with
      | some _, some _ => _
      | _, _ => (st, false, false)) = _
    rw [hguard]
  · intro resp
    show (match getActiveClient srv, srv.activeProjectPath with
      | some _, some _ => _
      | _, _ => (st, false)) = _
    rw [hguard]

/-- C10 witness: with no active server, fetchSessions empties the list
and createSession resolves null, independently of any would-be response. -/
theorem c10_missing_connection_guards_witness :
    (getActiveClient srvNoActive = none ∨ srvNoActive.activeProjectPath = none) ∧
    fetchSessions srvNoActive (Except.error "boom") stWithCurrent =
      ({ stWithCurrent with sessions := [], isLoading := false }, false) ∧
    createSession srvNoActive (Except.error "boom") stWithCurrent =
      (stWithCurrent, none, false) := by
  have h : getActiveClient srvNoActive = none ∨
      srvNoActive.activeProjectPath = none := Or.inl rfl
  exact ⟨h,
    (c10_missing_connection_guards srvNoActive stWithCurrent h).1 (Except.error "boom"),
    (c10_missing_connection_guards srvNoActive stWithCurrent h).2.2.1 (Except.error "boom")⟩

/-- C1: Buffer isolation — enter session A (fetch succeeds), apply any
live event during the visit, leave (clearCurrentSession resets the
current-session state), re-enter A with no new events: the second visit
shows A's messages/todos/status exactly as returned by the fetch — the
event applied during the first visit does not reappear; and at most one
session holds an active live buffer at any time. -/
theorem c1_buffer_isolation (srv : ServersState) (st : SessionsState)
    (c p : String) (sess : Session) (mdata : MessagesFetchData) (ev : LiveEvent)
    (hc : getActiveClient srv = some c) (hp : srv.activeProjectPath = some p) :
    (fetchSessionMessages sess.id srv (Except.ok mdata)
      (fetchSession srv (Except.ok (some sess))
        (clearCurrentSession (applyLiveEvent ev
          (fetchSessionMessages sess.id srv (Except.ok mdata)
            (fetchSession srv (Except.ok (some sess)) st)))))).currentSession =
      some { session := sess, messages := mdata.messages.getD [],
             todos := mdata.todos.getD [],
             status := ((mdata.statuses.getD StrMap.empty) sess.id).getD
               { type := StatusType.idle } } ∧
    (∀ (s : SessionsState) (i j : String),
      HasLiveBuffer s i → HasLiveBuffer s j → i = j) := by
  constructor
  · set Y := clearCurrentSession (applyLiveEvent ev
      (fetchSessionMessages sess.id srv (Except.ok mdata)
        (fetchSession srv (Except.ok (some sess)) st))) with hY
    have hYc : Y.currentSession = none := rfl
    have hfs : (fetchSession srv (Except.ok (some sess)) Y).currentSession =
        some { session := sess, messages := [], todos := [],
               status := { type := StatusType.idle } } := by
      simp only [fetchSession, hc, hp, hYc]
    simp only [fetchSessionMessages, hc, hp]
    simp [hfs]
  · intro s i j hi hj
    rcases hi with ⟨cs1, h1, hi1⟩
    rcases hj with ⟨cs2, h2, hj2⟩
    rw [h1] at h2
    injection h2 with h2
    rw [← hi1, ← hj2, h2]

/-- C1 witness: a concrete enter / event / leave / re-enter run ends
with exactly the fetched snapshot. -/
theorem c1_buffer_isolation_witness :
    getActiveClient srvConnected = some "http://localhost:4096" ∧
    srvConnected.activeProjectPath = some "/home/proj" ∧
    (fetchSessionMessages sessVisit.id srvConnected (Except.ok mdataSample)
      (fetchSession srvConnected (Except.ok (some sessVisit))
        (clearCurrentSession (applyLiveEvent
          (LiveEvent.part orphanPart none)
          (fetchSessionMessages sessVisit.id srvConnected (Except.ok mdataSample)
            (fetchSession srvConnected (Except.ok (some sessVisit))
              stEmpty)))))).currentSession =
      some { session := sessVisit, messages := mdataSample.messages.getD [],
             todos := mdataSample.todos.getD [],
             status := ((mdataSample.statuses.getD StrMap.empty) sessVisit.id).getD
               { type := StatusType.idle } } := by
  refine ⟨rfl, rfl, ?_⟩
  exact (c1_buffer_isolation srvConnected stEmpty "http://localhost:4096"
    "/home/proj" sessVisit mdataSample (LiveEvent.part orphanPart none)
    rfl rfl).1

/-- C3: Non-current-session events never touch the live buffer — for a
message.updated, message.part.updated or todo.updated event whose
session id differs from the current session's id, handleEvent leaves the
sessions store unchanged while still applying the update to the query
cache's messages entry keyed by that session id (entries under other
keys are untouched). -/
theorem c3_noncurrent_events_frame (app : AppState) (m : Message) (p : Part)
    (d : Option String) (sid : String) (ts : List Todo) :
    (currentSessionId app.store ≠ some m.sessionID →
      (handleEvent (Event.messageUpdated (some m)) app).store = app.store ∧
      (handleEvent (Event.messageUpdated (some m)) app).qc.messages m.sessionID =
        some (qMessagesAfterMessage m ((app.qc.messages m.sessionID).getD none)) ∧
      (∀ k, k ≠ m.sessionID →
        (handleEvent (Event.messageUpdated (some m)) app).qc.messages k =
          app.qc.messages k)) ∧
    (currentSessionId app.store ≠ some p.sessionID →
      (handleEvent (Event.messagePartUpdated (some p) d) app).store = app.store ∧
      (handleEvent (Event.messagePartUpdated (some p) d) app).qc.messages p.sessionID =
        some (qMessagesAfterPart p ((app.qc.messages p.sessionID).getD none)) ∧
      (∀ k, k ≠ p.sessionID →
        (handleEvent (Event.messagePartUpdated (some p) d) app).qc.messages k =
          app.qc.messages k)) ∧
    (currentSessionId app.store ≠ some sid →
      (handleEvent (Event.todoUpdated (some sid) (some ts)) app).store = app.store ∧
      (handleEvent (Event.todoUpdated (some sid) (some ts)) app).qc.messages sid =
        some (qMessagesAfterTodos ts ((app.qc.messages sid).getD none)) ∧
      (∀ k, k ≠ sid →
        (handleEvent (Event.todoUpdated (some sid) (some ts)) app).qc.messages k =
          app.qc.messages k)) := by
  refine ⟨?_, ?_, ?_⟩
  · intro h
    refine ⟨?_, ?_, ?_⟩
    · show updateMessageFromEvent m app.store = app.store
      exact updateMessageFromEvent_frame m app.store h
    · show (qUpdateMessage m app.qc).messages m.sessionID = _
      exact StrMap.set_apply_self _ _ _
    · intro k hk
      show (qUpdateMessage m app.qc).messages k = _
      exact StrMap.set_apply_ne _ _ _ _ hk
  · intro h
    refine ⟨?_, ?_, ?_⟩
    · show updatePartFromEvent p d app.store = app.store
      exact updatePartFromEvent_frame p d app.store h
    · show (qUpdatePart p app.qc).messages p.sessionID = _
      exact StrMap.set_apply_self _ _ _
    · intro k hk
      show (qUpdatePart p app.qc).messages k = _
      exact StrMap.set_apply_ne _ _ _ _ hk
  · intro h
    refine ⟨?_, ?_, ?_⟩
    · show updateTodosFromEvent sid ts app.store = app.store
      exact updateTodosFromEvent_frame sid ts app.store h
    · show (qUpdateTodos sid ts app.qc).messages sid = _
      exact StrMap.set_apply_self _ _ _
    · intro k hk
      show (qUpdateTodos sid ts app.qc).messages k = _
      exact StrMap.set_apply_ne _ _ _ _ hk

/-- C3 witness: with current session "s1", events for session "sB"
leave the store untouched while updating the cache entry for "sB". -/
theorem c3_noncurrent_events_frame_witness :
    currentSessionId appSample.store ≠ some msgForB.sessionID ∧
    currentSessionId appSample.store ≠ some partForB.sessionID ∧
    currentSessionId appSample.store ≠ some "sB" ∧
    (handleEvent (Event.messageUpdated (some msgForB)) appSample).store =
      appSample.store ∧
    (handleEvent (Event.messagePartUpdated (some partForB) none) appSample).store =
      appSample.store ∧
    (handleEvent (Event.todoUpdated (some "sB") (some [])) appSample).store =
      appSample.store ∧
    (handleEvent (Event.messageUpdated (some msgForB)) appSample).qc.messages
      msgForB.sessionID =
      some (qMessagesAfterMessage msgForB
        ((appSample.qc.messages msgForB.sessionID).getD none)) := by
  have h1 : currentSessionId appSample.store ≠ some msgForB.sessionID := by decide
  have h2 : currentSessionId appSample.store ≠ some partForB.sessionID := by decide
  have h3 : currentSessionId appSample.store ≠ some "sB" := by decide
  have hthm := c3_noncurrent_events_frame appSample msgForB partForB none "sB" []
  exact ⟨h1, h2, h3, (hthm.1 h1).1, (hthm.2.1 h2).1, (hthm.2.2 h3).1,
    (hthm.1 h1).2.1⟩

/-- C5 counterexample: starting from a cached list that a fetch would
produce (sorted descending: [a@300, b@200]), the update-session
mutation's cache patch replaces session b in place with an updated time
of 400 and does not re-sort, leaving [a@300, b@400] — not sorted by
time.updated descending, refuting "always sorted ... after every
mutation that rewrites the list". -/
theorem c5_counterexample :
    qcListSessions qcSorted = sortByUpdatedDesc [sessB, sessA] ∧
    SortedByUpdatedDesc (qcListSessions qcSorted) ∧
    qcListSessions (qUpdateSessionMutPatch sessBupdated qcSorted) =
      [sessA, sessBupdated] ∧
    ¬ SortedByUpdatedDesc
      (qcListSessions (qUpdateSessionMutPatch sessBupdated qcSorted)) := by
  decide

/-- C5 (amended): the cached session list is sorted by time.updated
descending after the initial fetch and after every SSE
session.created/session.updated upsert — both sort explicitly — and
sessions with times [100, 300, 200] come out as [300, 200, 100]; the
mutation cache patches do not re-sort, so after a mutation the list is
sorted only when the patched session's time respects the existing order,
e.g. a created session whose updated time dominates the cached ones. -/
theorem c5_amended_list_ordering (qc : QueryCache) (newSession : Session)
    (hsorted : SortedByUpdatedDesc (qcListSessions qc))
    (hnew : ∀ x ∈ qcListSessions qc, x.time.updated ≤ newSession.time.updated) :
    (∀ (srv : ServersState) (f : SessionsFetchData) (st : SessionsState),
      SortedByUpdatedDesc (fetchSessions srv (Except.ok f) st).1.sessions) ∧
    (∀ (s : Session) (qc2 : QueryCache),
      SortedByUpdatedDesc (qcListSessions (qUpdateSession s qc2))) ∧
    (∀ (s : Session) (st : SessionsState),
      SortedByUpdatedDesc (updateSessionFromEvent s st).sessions) ∧
    sortByUpdatedDesc [mkSession "x" 100, mkSession "y" 300, mkSession "z" 200] =
      [mkSession "y" 300, mkSession "z" 200, mkSession "x" 100] ∧
    SortedByUpdatedDesc (qcListSessions (qCreateSessionPatch newSession qc)) := by
  refine ⟨?_, ?_, ?_, by decide, ?_⟩
  · intro srv f st
    rcases hg : getActiveClient srv with _ | c
    · simp [fetchSessions, hg, SortedByUpdatedDesc]
    · rcases hp : srv.activeProjectPath with _ | p
      · simp [fetchSessions, hg, hp, SortedByUpdatedDesc]
      · rcases hf : f.sessions with _ | l
        · simp [fetchSessions, hg, hp, hf, SortedByUpdatedDesc]
        · simp only [fetchSessions, hg, hp, hf]
          exact sorted_sortByUpdatedDesc l
  · intro s qc2
    rcases hl : qc2.list with _ | old
    · simp [qUpdateSession, hl, qcListSessions, SortedByUpdatedDesc]
    · simp only [qUpdateSession, hl, qcListSessions, Option.map_some,
        Option.getD_some]
      exact sorted_sortByUpdatedDesc _
  · intro s st
    exact sorted_sortByUpdatedDesc _
  · rcases hl : qc.list with _ | old
    · simp [qCreateSessionPatch, hl, qcListSessions, SortedByUpdatedDesc]
    · have hold : qcListSessions qc = old.sessions := by
        simp [qcListSessions, hl]
      rw [hold] at hsorted hnew
      simp only [qCreateSessionPatch, hl, qcListSessions, Option.map_some,
        Option.getD_some]
      exact List.pairwise_cons.mpr ⟨hnew, hsorted⟩

/-- C5 amended witness: a freshly created session with the newest
timestamp keeps the concrete sorted cache sorted. -/
theorem c5_amended_list_ordering_witness :
    SortedByUpdatedDesc (qcListSessions qcSorted) ∧
    (∀ x ∈ qcListSessions qcSorted,
      x.time.updated ≤ (mkSession "c" 500).time.updated) ∧
    SortedByUpdatedDesc
      (qcListSessions (qCreateSessionPatch (mkSession "c" 500) qcSorted)) := by
  refine ⟨by decide, by decide, ?_⟩
  exact (c5_amended_list_ordering qcSorted (mkSession "c" 500)
    (by decide) (by decide)).2.2.2.2

/-- C7: Mutation atomicity — for every mutation
(create/delete/update/share/unshare), a thrown remote error or a
response without data leaves the sessions store and the query cache
exactly as they were (no optimistic patch), in both the store layer and
the query-mutation layer; and on a confirmed success the new state is
exactly the pure cache patch of the confirmed response applied to the
old state. -/
theorem c7_mutation_atomicity (srv : ServersState) (st : SessionsState)
    (qc : QueryCache) (e : String) (id_ ttl : String) (sess : Session) :
    ((createSession srv (Except.error e) st).1 = st ∧
     (createSession srv (Except.ok none) st).1 = st ∧
     (deleteSession id_ srv (Except.error e) st).1 = st ∧
     (deleteSession id_ srv (Except.ok none) st).1 = st ∧
     (deleteSession id_ srv (Except.ok (some false)) st).1 = st ∧
     updateSessionOp id_ ttl srv (Except.error e) st = st ∧
     updateSessionOp id_ ttl srv (Except.ok none) st = st ∧
     (shareSession srv (Except.error e) st).1 = st ∧
     (shareSession srv (Except.ok none) st).1 = st ∧
     (unshareSession srv (Except.error e) st).1 = st ∧
     (unshareSession srv (Except.ok none) st).1 = st) ∧
    ((useCreateSessionRun srv (Except.error e) qc).1 = qc ∧
     (useCreateSessionRun srv (Except.ok none) qc).1 = qc ∧
     (useDeleteSessionRun id_ srv (Except.error e) qc).1 = qc ∧
     (useDeleteSessionRun id_ srv (Except.ok none) qc).1 = qc ∧
     (useDeleteSessionRun id_ srv (Except.ok (some false)) qc).1 = qc ∧
     (useUpdateSessionRun srv (Except.error e) qc).1 = qc ∧
     (useUpdateSessionRun srv (Except.ok none) qc).1 = qc ∧
     (useShareSessionRun srv (Except.error e) qc).1 = qc ∧
     (useShareSessionRun srv (Except.ok none) qc).1 = qc ∧
     (useUnshareSessionRun srv (Except.error e) qc).1 = qc ∧
     (useUnshareSessionRun srv (Except.ok none) qc).1 = qc) ∧
    (∀ c p, getActiveClient srv = some c → srv.activeProjectPath = some p →
      (createSession srv (Except.ok (some sess)) st).1 =
        { st with sessions := sess :: st.sessions } ∧
      (useCreateSessionRun srv (Except.ok (some sess)) qc).1 =
        qCreateSessionPatch sess qc ∧
      (useUpdateSessionRun srv (Except.ok (some sess)) qc).1 =
        qUpdateSessionMutPatch sess qc ∧
      (useShareSessionRun srv (Except.ok (some sess)) qc).1 =
        qShareSessionPatch sess qc ∧
      (useUnshareSessionRun srv (Except.ok (some sess)) qc).1 =
        qUnshareSessionPatch sess qc) := by
  refine ⟨?_, ?_, ?_⟩
  · rcases hg : getActiveClient srv with _ | c <;>
      rcases hp2 : srv.activeProjectPath with _ | p2 <;>
      simp [createSession, deleteSession, updateSessionOp, shareSession,
        unshareSession, hg, hp2]
  · rcases hg : getActiveClient srv with _ | c <;>
      rcases hp2 : srv.activeProjectPath with _ | p2 <;>
      simp [useCreateSessionRun, useDeleteSessionRun, useUpdateSessionRun,
        useShareSessionRun, useUnshareSessionRun, mutationResult, hg, hp2]
  · intro c p hc hp
    simp [createSession, useCreateSessionRun, useUpdateSessionRun,
      useShareSessionRun, useUnshareSessionRun, mutationResult, hc, hp]

/-- C7 witness: with a connected server, a failed create leaves the
store and cache untouched and a confirmed create applies exactly the
prepend patch. -/
theorem c7_mutation_atomicity_witness :
    (createSession srvConnected (Except.error "boom") stWithCurrent).1 =
      stWithCurrent ∧
    (useCreateSessionRun srvConnected (Except.ok none) qcSorted).1 = qcSorted ∧
    getActiveClient srvConnected = some "http://localhost:4096" ∧
    srvConnected.activeProjectPath = some "/home/proj" ∧
    (createSession srvConnected (Except.ok (some sessA)) stWithCurrent).1 =
      { stWithCurrent with sessions := sessA :: stWithCurrent.sessions } := by
  have hthm := c7_mutation_atomicity srvConnected stWithCurrent qcSorted
    "boom" "b" "t" sessA
  exact ⟨hthm.1.1, hthm.2.1.2.1, rfl, rfl,
    (hthm.2.2 "http://localhost:4096" "/home/proj" rfl rfl).1⟩

/-- C8 counterexample: the shared query client is configured with
mutations.retry = 1 — failed mutations ARE retried once automatically,
contradicting "not retried automatically"; moreover the sessions
store's createSession catches a thrown remote error and resolves with
null (and an unchanged store) instead of rejecting. -/
theorem c8_counterexample :
    mutationsRetry = 1 ∧ ¬ mutationsRetry = 0 ∧
    (createSession srvConnected (Except.error "network error") stEmpty).2.1 =
      none ∧
    (createSession srvConnected (Except.error "network error") stEmpty).1 =
      stEmpty := by
  refine ⟨rfl, by decide, ?_, ?_⟩ <;> rfl

/-- C8 (amended): query-layer mutations are retried once automatically
(mutations.retry = 1) and, once retries are exhausted, surface to the
caller as a rejected operation with the cache unchanged; the sessions
store's own mutation wrappers instead catch failures and resolve with a
default value (createSession null with unchanged state, abortSession
false, sendPrompt no value) rather than rejecting. -/
theorem c8_amended_mutation_failures (srv : ServersState) (qc : QueryCache)
    (st : SessionsState) (e : String) (c p : String)
    (hc : getActiveClient srv = some c) (hp : srv.activeProjectPath = some p) :
    mutationsRetry = 1 ∧
    (useCreateSessionRun srv (Except.error e) qc).2 = Except.error e ∧
    (useCreateSessionRun srv (Except.error e) qc).1 = qc ∧
    (useSendPromptRun srv (Except.error e) qc).2 = Except.error e ∧
    (useSendPromptRun srv (Except.error e) qc).1 = qc ∧
    (createSession srv (Except.error e) st).2.1 = none ∧
    (createSession srv (Except.error e) st).1 = st ∧
    (abortSession srv (Except.error e) st).2.1 = false ∧
    sendPrompt srv (Except.error e) st = (st, true) := by
  refine ⟨rfl, ?_⟩
  simp [useCreateSessionRun, useSendPromptRun, createSession, abortSession,
    sendPrompt, mutationResult, hc, hp]

/-- C8 amended witness: concrete failing mutations against a connected
server. -/
theorem c8_amended_mutation_failures_witness :
    getActiveClient srvConnected = some "http://localhost:4096" ∧
    srvConnected.activeProjectPath = some "/home/proj" ∧
    (useCreateSessionRun srvConnected (Except.error "boom") qcEmpty).2 =
      Except.error "boom" ∧
    (createSession srvConnected (Except.error "boom") stEmpty).2.1 = none := by
  have hthm := c8_amended_mutation_failures srvConnected qcEmpty stEmpty
    "boom" "http://localhost:4096" "/home/proj" rfl rfl
  exact ⟨rfl, rfl, hthm.2.1, hthm.2.2.2.2.2.1⟩

end OCMobile
